import Mathlib

/-!
A shallow embedding of appwrite/monitoring (src/main.go, src/logger.go and the
metrics-push variant src/unnamed/part_001) in Lean 4, together with theorems
settling the claims about its incident lifecycle, evaluators, notifier and
scheduler.

Modelling conventions:
* Go `float64` percentages and limits are modelled as `ℚ`; the comparisons the
  program performs (`>` on non-NaN floats) agree with the rational order.
* `time.Now().Unix()` is an external input, threaded in as an `Int` parameter.
* Metric sampling (gopsutil) and HTTP delivery are external collaborators:
  each cycle's samples and each send's network outcome are inputs.
* Go's `interface{}`: a nil `*Incident` or nil `[]Incident` stored into an
  `interface{}` yields a NON-nil interface value (it carries a type); only the
  untyped nil interface compares equal to `nil`.  `GoEvalValue` models the
  interface value received by `processType`, keeping this distinction.
-/

deriving instance DecidableEq for Except

namespace Monitoring

/-- Incident record, src/main.go lines 19-25. -/
structure Incident where
  Title : String
  Cause : String
  AlertID : String
  Timestamp : Int
  Resolved : Bool
deriving Repr, DecidableEq

/-- The immutable part of `SystemMonitor` (src/main.go lines 27-36): hostname
and configured limits.  The mutable `incidents` map is threaded separately. -/
structure Config where
  hostname : String
  cpuLimit : ℚ
  memoryLimit : ℚ
  diskLimit : ℚ
  interval : Int
deriving Repr, DecidableEq

/-- The value of the `interface{}` returned by the evaluate closures in
`Start` (src/main.go lines 258-274) and inspected by `processType`.
`nilInterface` is the only value for which Go's `incidents == nil` holds;
a nil `*Incident` boxes to `ptr none` and a nil `[]Incident` boxes to
`list []`, both of which are non-nil interface values. -/
inductive GoEvalValue where
  | nilInterface
  | ptr (i : Option Incident)
  | list (l : List Incident)
deriving Repr, DecidableEq

/-- Outcome of one HTTP POST to the webhook, an environmental input to
`sendIncident` (src/main.go lines 196-204). -/
inductive NetOutcome where
  | transportErr (msg : String)
  | status (code : Nat)
deriving Repr, DecidableEq

/-- The error result of `sendIncident` (src/main.go lines 182-207) for a given
network outcome: transport errors fail, and so do HTTP statuses >= 400.
JSON marshalling of the fixed `Incident` shape cannot fail and is elided. -/
def sendErr : NetOutcome → Option String
  | .transportErr m => some ("failed to send request: " ++ m)
  | .status c => if c ≥ 400 then some ("request failed with status: " ++ toString c) else none

/-- Whether a send succeeded (no transport error, status below 400). -/
def sendOk (o : NetOutcome) : Bool := (sendErr o).isNone

/-- One attempted notification: the payload exactly as posted, and whether
delivery succeeded.  `createIncident` posts the incident as constructed
(`Resolved = false`); `resolveIncident` (src/main.go lines 176-180) sets
`Resolved := true` on its copy before posting. -/
inductive Event where
  | create (i : Incident) (ok : Bool)
  | resolve (i : Incident) (ok : Bool)
deriving Repr, DecidableEq

/-- The incident payload carried by an event. -/
def Event.incident : Event → Incident
  | .create i _ => i
  | .resolve i _ => i

/-- Whether an event is a resolve notification. -/
def Event.isResolve : Event → Bool
  | .create _ _ => false
  | .resolve _ _ => true

/-- The `incidents` field of `SystemMonitor`: a Go map from monitor type to a
slice of incidents, modelled as an association list with unique keys. -/
abbrev MonState := List (String × List Incident)

/-- Go map read `s.incidents[k]`: a missing key yields the zero value
(nil slice, here `[]`). -/
def mapGet (st : MonState) (k : String) : List Incident :=
  match st with
  | [] => []
  | p :: rest => if p.1 = k then p.2 else mapGet rest k

/-- Go map write `s.incidents[k] = v`: replaces the entry if the key is
present, otherwise appends a new entry. -/
def mapSet (st : MonState) (k : String) (v : List Incident) : MonState :=
  match st with
  | [] => [(k, v)]
  | p :: rest => if p.1 = k then (k, v) :: rest else p :: mapSet rest k v

/-- The key set of the incidents map (in entry order). -/
def mapKeys (st : MonState) : List String := st.map Prod.fst

/-- Whether the map has an entry for `k`. -/
def hasKey (st : MonState) (k : String) : Bool := (mapKeys st).contains k

/-- The initial incidents map built by `NewSystemMonitor`
(src/main.go lines 48-52): empty slices for cpu, memory and disk. -/
def initialIncidents : MonState := [("cpu", []), ("memory", []), ("disk", [])]

/-- Pop the next network outcome from the environment stream; an exhausted
stream is read as success (HTTP 200). -/
def takeNet (net : List NetOutcome) : NetOutcome × List NetOutcome :=
  match net with
  | [] => (.status 200, [])
  | o :: rest => (o, rest)

/-- Go `%.0f` formatting: round to the nearest integer, ties to even.
Computed on the reduced fraction: with floor `n`, the fractional part is
below / above / equal to one half according as twice its numerator compares
with the denominator. -/
def roundHalfToEven (q : ℚ) : Int :=
  let d : Int := (q.den : Int)
  let n : Int := Int.fdiv q.num d
  let twiceFrac : Int := 2 * (q.num - n * d)
  if twiceFrac < d then n
  else if d < twiceFrac then n + 1
  else if n % 2 = 0 then n else n + 1

/-- Render a limit as Go's `%.0f` does. -/
def fmtF0 (q : ℚ) : String := toString (roundHalfToEven q)

/-- What `cpu.Percent` delivered this cycle: an error, an empty slice, or a
single averaged percentage (src/main.go lines 71-78). -/
inductive CpuSample where
  | err (msg : String)
  | empty
  | val (v : ℚ)
deriving Repr, DecidableEq

/-- `evaluateCPUIncident`, src/main.go lines 62-91.  The sampling window
computation (lines 63-69) happens inside the external sampler call and does
not affect the result.  Returns the Go `(*Incident, error)` pair. -/
def evaluateCPUIncident (cfg : Config) (now : Int) (s : CpuSample) :
    Except String (Option Incident) :=
  match s with
  | .err m => .error ("failed to get CPU usage: " ++ m)
  | .empty => .ok none
  | .val v =>
    if v > cfg.cpuLimit then
      .ok (some
        { Title := "CPU usage higher than " ++ fmtF0 cfg.cpuLimit ++ "%! - " ++ cfg.hostname
          Cause := "High CPU usage"
          AlertID := "high-cpu-" ++ cfg.hostname
          Timestamp := now
          Resolved := false })
    else .ok none

/-- `evaluateMemoryIncident`, src/main.go lines 93-114.  The sample is the
used-percentage from `mem.VirtualMemory` (available/total are only logged). -/
def evaluateMemoryIncident (cfg : Config) (now : Int) (s : Except String ℚ) :
    Except String (Option Incident) :=
  match s with
  | .error m => .error ("failed to get memory stats: " ++ m)
  | .ok v =>
    if v > cfg.memoryLimit then
      .ok (some
        { Title := "Memory usage higher than " ++ fmtF0 cfg.memoryLimit ++ "%! - " ++ cfg.hostname
          Cause := "High memory usage"
          AlertID := "high-memory-" ++ cfg.hostname
          Timestamp := now
          Resolved := false })
    else .ok none

/-- What the disk sampler delivered this cycle: the root partition's
used-percentage (or error), the outcome of `filepath.Glob("/mnt/*")`, and one
used-percentage (or error) per discovered mount, in glob order. -/
structure DiskObservation where
  root : Except String ℚ
  globErr : Option String
  mounts : List (String × Except String ℚ)
deriving Repr, DecidableEq

/-- The incident built for a breaching mount (src/main.go lines 159-164).
Note the `AlertID` is the same `high-disk-<hostname>` used for the root
partition. -/
def mountIncident (cfg : Config) (now : Int) (mount : String) : Incident :=
  { Title := mount ++ " disk usage higher than " ++ fmtF0 cfg.diskLimit ++ "%! - " ++ cfg.hostname
    Cause := "High disk usage"
    AlertID := "high-disk-" ++ cfg.hostname
    Timestamp := now
    Resolved := false }

/-- The incident built for the breaching root partition
(src/main.go lines 131-136). -/
def rootDiskIncident (cfg : Config) (now : Int) : Incident :=
  { Title := "Root disk usage higher than " ++ fmtF0 cfg.diskLimit ++ "%! - " ++ cfg.hostname
    Cause := "High disk usage"
    AlertID := "high-disk-" ++ cfg.hostname
    Timestamp := now
    Resolved := false }

/-- `evaluateDiskIncident`, src/main.go lines 116-169: root partition first
(error aborts), then `filepath.Glob` (error aborts), then each mount; a
per-mount usage error only skips that mount.  Breaching dimensions are
appended in order. -/
def evaluateDiskIncident (cfg : Config) (now : Int) (d : DiskObservation) :
    Except String (List Incident) :=
  match d.root with
  | .error m => .error ("failed to get disk usage: " ++ m)
  | .ok rootV =>
    match d.globErr with
    | some m => .error ("failed to list mounted directories: " ++ m)
    | none =>
      let rootIncs := if rootV > cfg.diskLimit then [rootDiskIncident cfg now] else []
      let mountIncs := d.mounts.filterMap fun p =>
        match p.2 with
        | .error _ => none
        | .ok v => if v > cfg.diskLimit then some (mountIncident cfg now p.1) else none
      .ok (rootIncs ++ mountIncs)

/-- `getStatus`, src/unnamed/part_001 lines 202-207 (the metrics-push
variant's breach evaluator). -/
def getStatus (value limit : ℚ) : String :=
  if value > limit then "fail" else "pass"

/-- Result of one `processType` call: the updated incidents map, the
notifications attempted (in order), the returned error, and the remaining
network-outcome stream. -/
structure StepResult where
  incidents : MonState
  events : List Event
  errMsg : Option String
  net : List NetOutcome
deriving Repr, DecidableEq

/-- The resolve loop of `processType` (src/main.go lines 218-222): each stored
incident is sent with `Resolved := true`; a delivery failure is only logged. -/
def resolveLoop (l : List Incident) (net : List NetOutcome) :
    List Event × List NetOutcome :=
  match l with
  | [] => ([], net)
  | i :: rest =>
    let o := takeNet net
    let r := resolveLoop rest o.2
    (Event.resolve { i with Resolved := true } (sendOk o.1) :: r.1, r.2)

/-- The create loop of the `[]Incident` branch of `processType`
(src/main.go lines 242-246): incidents are sent in order; the first delivery
failure aborts the call with an error (before the map is updated). -/
def createLoop (l : List Incident) (net : List NetOutcome) :
    List Event × List NetOutcome × Option String :=
  match l with
  | [] => ([], net, none)
  | i :: rest =>
    let o := takeNet net
    if sendOk o.1 then
      let r := createLoop rest o.2
      (Event.create i true :: r.1, r.2.1, r.2.2)
    else
      ([Event.create i false], o.2, some ("failed to create incident: " ++ (sendErr o.1).getD ""))

/-- `processType`, src/main.go lines 209-251.  Faithfully keeps the Go
semantics of `incidents == nil`: only the untyped nil interface
(`GoEvalValue.nilInterface`) enters the resolve branch; a boxed nil
`*Incident` or nil `[]Incident` does not. -/
def processType (st : MonState) (monitorType : String)
    (evalResult : Except String GoEvalValue) (net : List NetOutcome) : StepResult :=
  match evalResult with
  | .error e => ⟨st, [], some ("failed to evaluate " ++ monitorType ++ ": " ++ e), net⟩
  | .ok GoEvalValue.nilInterface =>
    if (mapGet st monitorType).length > 0 then
      let r := resolveLoop (mapGet st monitorType) net
      ⟨mapSet st monitorType [], r.1, none, r.2⟩
    else ⟨st, [], none, net⟩
  | .ok (GoEvalValue.ptr i) =>
    if (mapGet st monitorType).length > 0 then ⟨st, [], none, net⟩
    else
      match i with
      | none => ⟨st, [], none, net⟩
      | some inc =>
        let o := takeNet net
        if sendOk o.1 then
          ⟨mapSet st monitorType [inc], [Event.create inc true], none, o.2⟩
        else
          ⟨st, [Event.create inc false],
            some ("failed to create incident: " ++ (sendErr o.1).getD ""), o.2⟩
  | .ok (GoEvalValue.list l) =>
    if (mapGet st monitorType).length > 0 then ⟨st, [], none, net⟩
    else
      let r := createLoop l net
      match r.2.2 with
      | some e => ⟨st, r.1, some e, r.2.1⟩
      | none => ⟨mapSet st monitorType l, r.1, none, r.2.1⟩

/-- The external inputs consumed by one tick's cycle: the three samples, the
`time.Now().Unix()` reading at each evaluator, and one network-outcome stream
per monitor type. -/
structure CycleInput where
  cpu : CpuSample
  cpuNow : Int
  memory : Except String ℚ
  memNow : Int
  disk : DiskObservation
  diskNow : Int
  netCpu : List NetOutcome
  netMem : List NetOutcome
  netDisk : List NetOutcome
deriving Repr

/-- A quiescent cycle input with a given CPU sample: memory and disk well
under any positive limit, all deliveries succeeding. -/
def cpuOnlyInput (s : CpuSample) : CycleInput :=
  ⟨s, 0, .ok 0, 0, ⟨.ok 0, none, []⟩, 0, [], [], []⟩

/-- One pass of the loop body of `Start` (src/main.go lines 257-275): cpu,
then memory, then disk, each via `processType` with its evaluate closure.
The closures box the typed results into `interface{}` (`GoEvalValue.ptr` /
`GoEvalValue.list`); errors from `processType` are logged and the cycle
continues. -/
structure CycleOutput where
  incidents : MonState
  cpuEvents : List Event
  memoryEvents : List Event
  diskEvents : List Event
  cpuErr : Option String
  memErr : Option String
  diskErr : Option String
deriving Repr, DecidableEq

/-- All notifications attempted during a cycle, in program order. -/
def CycleOutput.events (c : CycleOutput) : List Event :=
  c.cpuEvents ++ c.memoryEvents ++ c.diskEvents

def runCycle (cfg : Config) (st : MonState) (inp : CycleInput) : CycleOutput :=
  let r1 := processType st "cpu"
    ((evaluateCPUIncident cfg inp.cpuNow inp.cpu).map GoEvalValue.ptr) inp.netCpu
  let r2 := processType r1.incidents "memory"
    ((evaluateMemoryIncident cfg inp.memNow inp.memory).map GoEvalValue.ptr) inp.netMem
  let r3 := processType r2.incidents "disk"
    ((evaluateDiskIncident cfg inp.diskNow inp.disk).map GoEvalValue.list) inp.netDisk
  ⟨r3.incidents, r1.events, r2.events, r3.events, r1.errMsg, r2.errMsg, r3.errMsg⟩

/-- Run the loop of `Start` over a finite prefix of ticks, threading the
incidents map and collecting each cycle's output. -/
def runCycles (cfg : Config) (st : MonState) (inputs : List CycleInput) :
    MonState × List CycleOutput :=
  match inputs with
  | [] => (st, [])
  | i :: rest =>
    let c := runCycle cfg st i
    let r := runCycles cfg c.incidents rest
    (r.1, c :: r.2)

/-- `Start`, src/main.go lines 253-276, from the initial map built by
`NewSystemMonitor`: the body runs once per ticker tick — there is no cycle
before the first tick. -/
def monitorStart (cfg : Config) (inputs : List CycleInput) : MonState × List CycleOutput :=
  runCycles cfg initialIncidents inputs

/-! ### Concrete fixtures used by the counterexample and divergence theorems -/

/-- A monitor configured with the CLI defaults (src/main.go lines 281-284) on
host `h`. -/
def cfg0 : Config := ⟨"h", 90, 90, 85, 300⟩

/-- A cycle input exercising only the disk dimension: quiescent cpu and
memory, a root used-percentage and a list of mounts with their
used-percentages, all deliveries succeeding. -/
def diskOnlyInput (root : ℚ) (ms : List (String × ℚ)) : CycleInput :=
  ⟨.val 0, 0, .ok 0, 0, ⟨.ok root, none, ms.map fun p => (p.1, .ok p.2)⟩, 0, [], [], []⟩

/-- The incident `evaluateCPUIncident` builds on `cfg0` at time 0. -/
def cpuInc0 : Incident :=
  ⟨"CPU usage higher than 90%! - h", "High CPU usage", "high-cpu-h", 0, false⟩

/-- The incident `evaluateDiskIncident` builds for mount `/mnt/data` on
`cfg0` at time 0. -/
def dataInc0 : Incident := mountIncident cfg0 0 "/mnt/data"

/-- The title of `/mnt/data` breach incidents on `cfg0`, used to attribute
disk events to that mount (the `AlertID` cannot distinguish mounts). -/
def dataTitle : String := "/mnt/data disk usage higher than 85%! - h"

/-- The disk events of a cycle that carry a given incident title. -/
def eventsForTitle (t : String) (c : CycleOutput) : List Event :=
  c.events.filter fun e => e.incident.Title == t

/-- The observation history a cycle input holds for one mount path. -/
def mountSample (m : String) (i : CycleInput) : Option (Except String ℚ) :=
  (i.disk.mounts.find? fun p => p.1 == m).map Prod.snd

/-- The cpu-dimension part of a cycle input: sample, clock reading and
delivery outcomes consumed by the cpu `processType` call. -/
def CycleInput.cpuPart (i : CycleInput) : CpuSample × Int × List NetOutcome :=
  (i.cpu, i.cpuNow, i.netCpu)

/-- The memory-dimension part of a cycle input. -/
def CycleInput.memPart (i : CycleInput) : Except String ℚ × Int × List NetOutcome :=
  (i.memory, i.memNow, i.netMem)

/-- The disk-dimension part of a cycle input. -/
def CycleInput.diskPart (i : CycleInput) : DiskObservation × Int × List NetOutcome :=
  (i.disk, i.diskNow, i.netDisk)

/-- The cpu step of a cycle, as `runCycle` performs it. -/
def cpuStep (cfg : Config) (st : MonState) (i : CycleInput) : StepResult :=
  processType st "cpu" ((evaluateCPUIncident cfg i.cpuNow i.cpu).map GoEvalValue.ptr) i.netCpu

/-- The memory step of a cycle runs on the state left by the cpu step. -/
def memStep (cfg : Config) (st : MonState) (i : CycleInput) : StepResult :=
  processType (cpuStep cfg st i).incidents "memory"
    ((evaluateMemoryIncident cfg i.memNow i.memory).map GoEvalValue.ptr) i.netMem

/-- The disk step of a cycle runs on the state left by the memory step. -/
def diskStep (cfg : Config) (st : MonState) (i : CycleInput) : StepResult :=
  processType (memStep cfg st i).incidents "disk"
    ((evaluateDiskIncident cfg i.diskNow i.disk).map GoEvalValue.list) i.netDisk

/-- Input sequence for the mount-disappearance scenario: `/mnt/data` breaches
on cycle 1 and is no longer discovered on cycles 2 and 3. -/
def c4Inputs : List CycleInput :=
  [diskOnlyInput 50 [("/mnt/data", 90)], diskOnlyInput 50 [], diskOnlyInput 50 []]

/-- Input sequence for the sampler-error scenario: cpu breaches on cycle 1,
the cpu sampler fails on cycle 2, cycle 3 samples back under the limit. -/
def c5Inputs : List CycleInput :=
  [cpuOnlyInput (.val 95), cpuOnlyInput (.err "boom"), cpuOnlyInput (.val 50)]

/-- Run A of the dimension-independence scenario: the root partition breaches
on both cycles; `/mnt/data` breaches only on cycle 2. -/
def c3RunA : List CycleInput :=
  [diskOnlyInput 90 [("/mnt/data", 50)], diskOnlyInput 90 [("/mnt/data", 90)]]

/-- Run B: identical `/mnt/data` history to run A (breach only on cycle 2),
but the root partition never breaches. -/
def c3RunB : List CycleInput :=
  [diskOnlyInput 50 [("/mnt/data", 50)], diskOnlyInput 50 [("/mnt/data", 90)]]

/-- A cycle input whose single cpu create notification fails in transport. -/
def c6Input : CycleInput := { cpuOnlyInput (.val 95) with netCpu := [.transportErr "conn refused"] }

/-- Modelled from the spec: "Runs an initial cycle immediately at startup,
then one cycle per tick thereafter" — after n ticks such a scheduler has run
n + 1 reconciliation cycles.  (An initial check does exist in the metrics-push
variant src/unnamed/part_001 lines 238-249, but `Start` in src/main.go runs
its body only inside `for range ticker.C`.) -/
def startSpecCycleCount (ticks : Nat) : Nat := ticks + 1

/-! ### Lemmas about the incidents map -/

lemma mapGet_mapSet_self (st : MonState) (k : String) (v : List Incident) :
    mapGet (mapSet st k v) k = v := by
  induction st with
  | nil => simp [mapSet, mapGet]
  | cons p rest ih =>
    by_cases h : p.1 = k
    · simp [mapSet, h, mapGet]
    · simp [mapSet, h, mapGet, ih]

lemma mapGet_mapSet_ne (st : MonState) (j k : String) (v : List Incident) (h : j ≠ k) :
    mapGet (mapSet st j v) k = mapGet st k := by
  induction st with
  | nil => simp [mapSet, mapGet, h]
  | cons p rest ih =>
    by_cases hp : p.1 = j
    · simp [mapSet, hp, mapGet, h]
    · simp [mapSet, hp, mapGet, ih]

lemma mapKeys_mapSet_of_hasKey (st : MonState) (k : String) (v : List Incident)
    (h : hasKey st k = true) : mapKeys (mapSet st k v) = mapKeys st := by
  induction st with
  | nil => simp [hasKey, mapKeys] at h
  | cons p rest ih =>
    by_cases hp : p.1 = k
    · simp [mapSet, hp, mapKeys]
    · have h' : hasKey rest k = true := by
        simp [hasKey, mapKeys, List.contains_cons] at h ⊢
        rcases h with h | h
        · exact absurd h.symm hp
        · exact h
      simp [mapSet, hp, mapKeys] at ih ⊢
      exact ih h'

/-! ### Structural lemmas about `processType` -/

/-- `processType` either leaves the map alone or writes its own key. -/
lemma processType_incidents_shape (st : MonState) (t : String)
    (ev : Except String GoEvalValue) (net : List NetOutcome) :
    (processType st t ev net).incidents = st ∨
    ∃ v, (processType st t ev net).incidents = mapSet st t v := by
  unfold processType
  rcases ev with e | v
  · left; rfl
  rcases v with _ | i | l
  · by_cases h : (mapGet st t).length > 0
    · simp only [h, if_true]; right; exact ⟨[], rfl⟩
    · simp only [h, if_false]; left; trivial
  · by_cases h : (mapGet st t).length > 0
    · simp only [h, if_true]; left; trivial
    · rcases i with _ | inc
      · simp only [h, if_false]; left; trivial
      · by_cases hs : sendOk (takeNet net).1
        · simp only [h, if_false, hs, if_true]; right; exact ⟨[inc], rfl⟩
        · simp only [h, if_false, hs, Bool.false_eq_true, if_false]; left; trivial
  · by_cases h : (mapGet st t).length > 0
    · simp only [h, if_true]; left; trivial
    · simp only [h, if_false]
      rcases hcl : (createLoop l net).2.2 with _ | e
      · simp only [hcl]; right; exact ⟨l, rfl⟩
      · simp only [hcl]; left; trivial

/-- Frame property: `processType` never changes the entry of another key. -/
lemma processType_frame (st : MonState) (t : String) (ev : Except String GoEvalValue)
    (net : List NetOutcome) (k : String) (hk : k ≠ t) :
    mapGet (processType st t ev net).incidents k = mapGet st k := by
  rcases processType_incidents_shape st t ev net with h | ⟨v, h⟩
  · rw [h]
  · rw [h, mapGet_mapSet_ne st t k v (Ne.symm hk)]

/-- `processType` preserves the key set whenever its key already exists. -/
lemma processType_keys (st : MonState) (t : String) (ev : Except String GoEvalValue)
    (net : List NetOutcome) (h : hasKey st t = true) :
    mapKeys (processType st t ev net).incidents = mapKeys st := by
  rcases processType_incidents_shape st t ev net with hs | ⟨v, hs⟩
  · rw [hs]
  · rw [hs, mapKeys_mapSet_of_hasKey st t v h]

/-- The observable behaviour of `processType` depends on the map only through
the entry at its own key. -/
lemma processType_congr (st st' : MonState) (t : String) (ev : Except String GoEvalValue)
    (net : List NetOutcome) (h : mapGet st t = mapGet st' t) :
    (processType st t ev net).events = (processType st' t ev net).events ∧
    (processType st t ev net).errMsg = (processType st' t ev net).errMsg ∧
    mapGet (processType st t ev net).incidents t
      = mapGet (processType st' t ev net).incidents t := by
  unfold processType
  rcases ev with e | v
  · exact ⟨rfl, rfl, h⟩
  rcases v with _ | i | l
  · rw [h]
    by_cases hl : (mapGet st' t).length > 0
    · simp [hl, mapGet_mapSet_self]
    · simp [hl, h]
  · rw [h]
    by_cases hl : (mapGet st' t).length > 0
    · simp [hl, h]
    · rcases i with _ | inc
      · simp [hl, h]
      · by_cases hs : sendOk (takeNet net).1
        · simp [hl, hs, mapGet_mapSet_self]
        · simp [hl, hs, h]
  · rw [h]
    by_cases hl : (mapGet st' t).length > 0
    · simp [hl, h]
    · rcases hcl : (createLoop l net).2.2 with _ | e
      · simp [hl, hcl, mapGet_mapSet_self]
      · simp [hl, hcl, h]

/-! ### Per-class views of a cycle -/

lemma runCycle_as_steps (cfg : Config) (st : MonState) (i : CycleInput) :
    runCycle cfg st i =
      ⟨(diskStep cfg st i).incidents, (cpuStep cfg st i).events, (memStep cfg st i).events,
        (diskStep cfg st i).events, (cpuStep cfg st i).errMsg, (memStep cfg st i).errMsg,
        (diskStep cfg st i).errMsg⟩ := rfl

lemma string_keys_ne₁ : ("cpu" : String) ≠ "memory" := by decide
lemma string_keys_ne₂ : ("cpu" : String) ≠ "disk" := by decide
lemma string_keys_ne₃ : ("memory" : String) ≠ "disk" := by decide

/-- The cpu entry after a full cycle is the cpu entry after the cpu step. -/
lemma runCycle_cpu_entry (cfg : Config) (st : MonState) (i : CycleInput) :
    mapGet (runCycle cfg st i).incidents "cpu" = mapGet (cpuStep cfg st i).incidents "cpu" := by
  rw [runCycle_as_steps]
  show mapGet (diskStep cfg st i).incidents "cpu" = _
  rw [diskStep, processType_frame _ _ _ _ _ string_keys_ne₂,
    memStep, processType_frame _ _ _ _ _ string_keys_ne₁]

/-- The memory entry seen by the memory step is the cycle's initial one. -/
lemma memStep_entry (cfg : Config) (st : MonState) (i : CycleInput) :
    mapGet (cpuStep cfg st i).incidents "memory" = mapGet st "memory" := by
  rw [cpuStep, processType_frame _ _ _ _ _ (Ne.symm string_keys_ne₁)]

/-- The memory entry after a full cycle is the one after the memory step. -/
lemma runCycle_mem_entry (cfg : Config) (st : MonState) (i : CycleInput) :
    mapGet (runCycle cfg st i).incidents "memory"
      = mapGet (memStep cfg st i).incidents "memory" := by
  rw [runCycle_as_steps]
  show mapGet (diskStep cfg st i).incidents "memory" = _
  rw [diskStep, processType_frame _ _ _ _ _ string_keys_ne₃]

/-- The disk entry seen by the disk step is the cycle's initial one. -/
lemma diskStep_entry (cfg : Config) (st : MonState) (i : CycleInput) :
    mapGet (memStep cfg st i).incidents "disk" = mapGet st "disk" := by
  rw [memStep, processType_frame _ _ _ _ _ (Ne.symm string_keys_ne₃),
    cpuStep, processType_frame _ _ _ _ _ (Ne.symm string_keys_ne₂)]

/-- The disk entry after a full cycle is the one after the disk step. -/
lemma runCycle_disk_entry (cfg : Config) (st : MonState) (i : CycleInput) :
    mapGet (runCycle cfg st i).incidents "disk"
      = mapGet (diskStep cfg st i).incidents "disk" := by
  rw [runCycle_as_steps]

/-- Cycles agreeing on their cpu inputs and on the stored cpu entry produce
the same cpu events and the same next cpu entry. -/
lemma runCycle_cpu_congr (cfg : Config) (st st' : MonState) (i i' : CycleInput)
    (hst : mapGet st "cpu" = mapGet st' "cpu") (hi : i.cpuPart = i'.cpuPart) :
    (runCycle cfg st i).cpuEvents = (runCycle cfg st' i').cpuEvents ∧
    mapGet (runCycle cfg st i).incidents "cpu"
      = mapGet (runCycle cfg st' i').incidents "cpu" := by
  obtain ⟨h1, h2, h3⟩ : i.cpu = i'.cpu ∧ i.cpuNow = i'.cpuNow ∧ i.netCpu = i'.netCpu := by
    have := hi
    simp [CycleInput.cpuPart, Prod.ext_iff] at this
    exact ⟨this.1, this.2.1, this.2.2⟩
  have key := processType_congr st st' "cpu"
    ((evaluateCPUIncident cfg i.cpuNow i.cpu).map GoEvalValue.ptr) i.netCpu hst
  constructor
  · show (cpuStep cfg st i).events = (cpuStep cfg st' i').events
    rw [cpuStep, cpuStep, ← h1, ← h2, ← h3]
    exact key.1
  · rw [runCycle_cpu_entry, runCycle_cpu_entry, cpuStep, cpuStep, ← h1, ← h2, ← h3]
    exact key.2.2

/-- Cycles agreeing on their memory inputs and on the stored memory entry
produce the same memory events and the same next memory entry. -/
lemma runCycle_mem_congr (cfg : Config) (st st' : MonState) (i i' : CycleInput)
    (hst : mapGet st "memory" = mapGet st' "memory") (hi : i.memPart = i'.memPart) :
    (runCycle cfg st i).memoryEvents = (runCycle cfg st' i').memoryEvents ∧
    mapGet (runCycle cfg st i).incidents "memory"
      = mapGet (runCycle cfg st' i').incidents "memory" := by
  obtain ⟨h1, h2, h3⟩ : i.memory = i'.memory ∧ i.memNow = i'.memNow ∧ i.netMem = i'.netMem := by
    have := hi
    simp [CycleInput.memPart, Prod.ext_iff] at this
    exact ⟨this.1, this.2.1, this.2.2⟩
  have hentry : mapGet (cpuStep cfg st i).incidents "memory"
      = mapGet (cpuStep cfg st' i').incidents "memory" := by
    rw [memStep_entry, memStep_entry]; exact hst
  have key := processType_congr (cpuStep cfg st i).incidents (cpuStep cfg st' i').incidents
    "memory" ((evaluateMemoryIncident cfg i.memNow i.memory).map GoEvalValue.ptr) i.netMem hentry
  constructor
  · show (memStep cfg st i).events = (memStep cfg st' i').events
    rw [memStep, memStep, ← h1, ← h2, ← h3]
    exact key.1
  · rw [runCycle_mem_entry, runCycle_mem_entry, memStep, memStep, ← h1, ← h2, ← h3]
    exact key.2.2

/-- Cycles agreeing on their disk inputs and on the stored disk entry produce
the same disk events and the same next disk entry. -/
lemma runCycle_disk_congr (cfg : Config) (st st' : MonState) (i i' : CycleInput)
    (hst : mapGet st "disk" = mapGet st' "disk") (hi : i.diskPart = i'.diskPart) :
    (runCycle cfg st i).diskEvents = (runCycle cfg st' i').diskEvents ∧
    mapGet (runCycle cfg st i).incidents "disk"
      = mapGet (runCycle cfg st' i').incidents "disk" := by
  obtain ⟨h1, h2, h3⟩ : i.disk = i'.disk ∧ i.diskNow = i'.diskNow ∧ i.netDisk = i'.netDisk := by
    have := hi
    simp [CycleInput.diskPart, Prod.ext_iff] at this
    exact ⟨this.1, this.2.1, this.2.2⟩
  have hentry : mapGet (memStep cfg st i).incidents "disk"
      = mapGet (memStep cfg st' i').incidents "disk" := by
    rw [diskStep_entry, diskStep_entry]; exact hst
  have key := processType_congr (memStep cfg st i).incidents (memStep cfg st' i').incidents
    "disk" ((evaluateDiskIncident cfg i.diskNow i.disk).map GoEvalValue.list) i.netDisk hentry
  constructor
  · show (diskStep cfg st i).events = (diskStep cfg st' i').events
    rw [diskStep, diskStep, ← h1, ← h2, ← h3]
    exact key.1
  · rw [runCycle_disk_entry, runCycle_disk_entry, diskStep, diskStep, ← h1, ← h2, ← h3]
    exact key.2.2

/-! ### Run-level lemmas -/

lemma runCycles_cpu_congr (cfg : Config) :
    ∀ (inps inps' : List CycleInput) (st st' : MonState),
      mapGet st "cpu" = mapGet st' "cpu" →
      inps.map CycleInput.cpuPart = inps'.map CycleInput.cpuPart →
      (runCycles cfg st inps).2.map CycleOutput.cpuEvents
        = (runCycles cfg st' inps').2.map CycleOutput.cpuEvents := by
  intro inps
  induction inps with
  | nil =>
    intro inps' st st' hst hmap
    cases inps' with
    | nil => rfl
    | cons j js => simp at hmap
  | cons i rest ih =>
    intro inps' st st' hst hmap
    cases inps' with
    | nil => simp at hmap
    | cons i' rest' =>
      simp only [List.map_cons, List.cons.injEq] at hmap
      obtain ⟨hhead, htail⟩ := hmap
      have hc := runCycle_cpu_congr cfg st st' i i' hst hhead
      simp only [runCycles, List.map_cons, List.cons.injEq]
      exact ⟨hc.1, ih rest' (runCycle cfg st i).incidents (runCycle cfg st' i').incidents hc.2 htail⟩

lemma runCycles_mem_congr (cfg : Config) :
    ∀ (inps inps' : List CycleInput) (st st' : MonState),
      mapGet st "memory" = mapGet st' "memory" →
      inps.map CycleInput.memPart = inps'.map CycleInput.memPart →
      (runCycles cfg st inps).2.map CycleOutput.memoryEvents
        = (runCycles cfg st' inps').2.map CycleOutput.memoryEvents := by
  intro inps
  induction inps with
  | nil =>
    intro inps' st st' hst hmap
    cases inps' with
    | nil => rfl
    | cons j js => simp at hmap
  | cons i rest ih =>
    intro inps' st st' hst hmap
    cases inps' with
    | nil => simp at hmap
    | cons i' rest' =>
      simp only [List.map_cons, List.cons.injEq] at hmap
      obtain ⟨hhead, htail⟩ := hmap
      have hc := runCycle_mem_congr cfg st st' i i' hst hhead
      simp only [runCycles, List.map_cons, List.cons.injEq]
      exact ⟨hc.1, ih rest' (runCycle cfg st i).incidents (runCycle cfg st' i').incidents hc.2 htail⟩

lemma runCycles_disk_congr (cfg : Config) :
    ∀ (inps inps' : List CycleInput) (st st' : MonState),
      mapGet st "disk" = mapGet st' "disk" →
      inps.map CycleInput.diskPart = inps'.map CycleInput.diskPart →
      (runCycles cfg st inps).2.map CycleOutput.diskEvents
        = (runCycles cfg st' inps').2.map CycleOutput.diskEvents := by
  intro inps
  induction inps with
  | nil =>
    intro inps' st st' hst hmap
    cases inps' with
    | nil => rfl
    | cons j js => simp at hmap
  | cons i rest ih =>
    intro inps' st st' hst hmap
    cases inps' with
    | nil => simp at hmap
    | cons i' rest' =>
      simp only [List.map_cons, List.cons.injEq] at hmap
      obtain ⟨hhead, htail⟩ := hmap
      have hc := runCycle_disk_congr cfg st st' i i' hst hhead
      simp only [runCycles, List.map_cons, List.cons.injEq]
      exact ⟨hc.1, ih rest' (runCycle cfg st i).incidents (runCycle cfg st' i').incidents hc.2 htail⟩

lemma runCycles_length (cfg : Config) :
    ∀ (inputs : List CycleInput) (st : MonState),
      (runCycles cfg st inputs).2.length = inputs.length := by
  intro inputs
  induction inputs with
  | nil => intro st; rfl
  | cons i rest ih => intro st; simp [runCycles, ih]

lemma runCycles_snoc (cfg : Config) :
    ∀ (inputs : List CycleInput) (st : MonState) (i : CycleInput),
      runCycles cfg st (inputs ++ [i])
        = ((runCycle cfg (runCycles cfg st inputs).1 i).incidents,
           (runCycles cfg st inputs).2 ++ [runCycle cfg (runCycles cfg st inputs).1 i]) := by
  intro inputs
  induction inputs with
  | nil => intro st i; rfl
  | cons j rest ih => intro st i; simp [runCycles, ih]

/-- Keys of the incidents map are preserved by a cycle whenever the three
monitor types are present. -/
lemma runCycle_keys (cfg : Config) (st : MonState) (i : CycleInput)
    (h : mapKeys st = ["cpu", "memory", "disk"]) :
    mapKeys (runCycle cfg st i).incidents = ["cpu", "memory", "disk"] := by
  have hk : ∀ t, t ∈ (["cpu", "memory", "disk"] : List String) → hasKey st t = true := by
    intro t ht
    simp [hasKey, h]
    simp at ht
    rcases ht with ht | ht | ht <;> simp [ht]
  rw [runCycle_as_steps]
  show mapKeys (diskStep cfg st i).incidents = _
  have h1 : mapKeys (cpuStep cfg st i).incidents = ["cpu", "memory", "disk"] := by
    rw [cpuStep, processType_keys _ _ _ _ (hk "cpu" (by simp))]; exact h
  have h2 : mapKeys (memStep cfg st i).incidents = ["cpu", "memory", "disk"] := by
    rw [memStep, processType_keys _ _ _ _ (by simp [hasKey, h1])]; exact h1
  rw [diskStep, processType_keys _ _ _ _ (by simp [hasKey, h2])]; exact h2

lemma runCycles_keys (cfg : Config) :
    ∀ (inputs : List CycleInput) (st : MonState),
      mapKeys st = ["cpu", "memory", "disk"] →
      mapKeys (runCycles cfg st inputs).1 = ["cpu", "memory", "disk"] := by
  intro inputs
  induction inputs with
  | nil => intro st h; exact h
  | cons i rest ih =>
    intro st h
    exact ih (runCycle cfg st i).incidents (runCycle_keys cfg st i h)

/-- The resolve loop attempts exactly one resolve notification per stored
incident, whatever the delivery outcomes. -/
lemma resolveLoop_filter_length (l : List Incident) :
    ∀ net, ((resolveLoop l net).1.filter Event.isResolve).length = l.length := by
  induction l with
  | nil => intro net; rfl
  | cons i rest ih => intro net; simp [resolveLoop, Event.isResolve, ih]

lemma string_length_append (s t : String) : (s ++ t).length = s.length + t.length := by
  cases s; cases t; simp [String.length, String.append]

/-- The three per-class alert identifiers are pairwise distinct on any host,
because their fixed prefixes have different lengths. -/
lemma classAlertIds_distinct (h : String) :
    ("high-cpu-" ++ h ≠ "high-memory-" ++ h) ∧ ("high-cpu-" ++ h ≠ "high-disk-" ++ h) ∧
    ("high-memory-" ++ h ≠ "high-disk-" ++ h) := by
  refine ⟨fun he => ?_, fun he => ?_, fun he => ?_⟩
  · have hl : (9 : ℕ) + h.length = 12 + h.length := by
      have := congrArg String.length he
      rw [string_length_append, string_length_append] at this
      exact this
    omega
  · have hl : (9 : ℕ) + h.length = 10 + h.length := by
      have := congrArg String.length he
      rw [string_length_append, string_length_append] at this
      exact this
    omega
  · have hl : (12 : ℕ) + h.length = 10 + h.length := by
      have := congrArg String.length he
      rw [string_length_append, string_length_append] at this
      exact this
    omega

/-! ### Claim theorems -/

/-- C1: in the four-case reconciliation rule, the resolve case does not hold
on the code.  With the default limits, cpu sample 95 on cycle 1 creates an
incident (breach with no active incident: one create, inserted), but cpu
sample 50 on cycle 2 — no breach while an active incident exists — emits no
action and leaves the incident in the Active-Incident Set: `Start`'s closure
boxes the nil `*Incident` returned by `evaluateCPUIncident` into a non-nil
`interface{}` (`GoEvalValue.ptr none`), so `processType`'s `incidents == nil`
resolve branch never runs. -/
theorem c1_recovery_emits_no_resolve :
    ((monitorStart cfg0 [cpuOnlyInput (.val 95), cpuOnlyInput (.val 50)]).2.map
        CycleOutput.cpuEvents = [[Event.create cpuInc0 true], []]) ∧
    (mapGet (monitorStart cfg0 [cpuOnlyInput (.val 95), cpuOnlyInput (.val 50)]).1 "cpu"
        = [cpuInc0]) ∧
    ((evaluateCPUIncident cfg0 0 (.val 50)).map GoEvalValue.ptr
        = .ok (GoEvalValue.ptr none)) := by
  decide

/-- C2: the claimed scenario fails on the code: with limit 90 the cpu sample
sequence [50, 95, 96, 80] produces actions [none, create, none, none] — the
final resolve the claim requires is never emitted (zero resolve notifications
in the whole run, though the sequence has one true-to-false transition). -/
theorem c2_sample_scenario_divergence :
    ((monitorStart cfg0 ([50, 95, 96, 80].map fun v => cpuOnlyInput (.val v))).2.map
        CycleOutput.cpuEvents = [[], [Event.create cpuInc0 true], [], []]) ∧
    ((((monitorStart cfg0 ([50, 95, 96, 80].map fun v => cpuOnlyInput (.val v))).2.map
        CycleOutput.events).flatten.filter Event.isResolve).length = 0) := by
  decide

/-- C3 counterexample: disk mounts are not independent dimensions.  Runs A
and B agree on the full observation history of `/mnt/data` (and on cpu and
memory) and differ only on the root partition, yet the action sequences
attributed to `/mnt/data` differ: in run A the root breach on cycle 1 fills
the shared "disk" entry and suppresses the create for `/mnt/data` on
cycle 2, while run B emits it. -/
theorem c3_counterexample :
    (c3RunA.map (mountSample "/mnt/data") = c3RunB.map (mountSample "/mnt/data")) ∧
    (c3RunA.map CycleInput.cpuPart = c3RunB.map CycleInput.cpuPart) ∧
    (c3RunA.map CycleInput.memPart = c3RunB.map CycleInput.memPart) ∧
    ((monitorStart cfg0 c3RunA).2.map (eventsForTitle dataTitle)
      ≠ (monitorStart cfg0 c3RunB).2.map (eventsForTitle dataTitle)) := by
  decide

/-- C3 (amended): independence holds at the granularity of the three monitor
types: two runs agreeing on a class's samples, clock readings and delivery
outcomes produce identical event sequences for that class, whatever the
other classes' inputs. -/
theorem c3_class_level_independence (cfg : Config) (inps inps' : List CycleInput) :
    (inps.map CycleInput.cpuPart = inps'.map CycleInput.cpuPart →
      (monitorStart cfg inps).2.map CycleOutput.cpuEvents
        = (monitorStart cfg inps').2.map CycleOutput.cpuEvents) ∧
    (inps.map CycleInput.memPart = inps'.map CycleInput.memPart →
      (monitorStart cfg inps).2.map CycleOutput.memoryEvents
        = (monitorStart cfg inps').2.map CycleOutput.memoryEvents) ∧
    (inps.map CycleInput.diskPart = inps'.map CycleInput.diskPart →
      (monitorStart cfg inps).2.map CycleOutput.diskEvents
        = (monitorStart cfg inps').2.map CycleOutput.diskEvents) :=
  ⟨fun h => runCycles_cpu_congr cfg inps inps' initialIncidents initialIncidents rfl h,
   fun h => runCycles_mem_congr cfg inps inps' initialIncidents initialIncidents rfl h,
   fun h => runCycles_disk_congr cfg inps inps' initialIncidents initialIncidents rfl h⟩

/-- C3 witness: two one-cycle runs differing only in the memory sample have
equal cpu parts and produce the same cpu events. -/
theorem c3_class_level_independence_witness :
    ([cpuOnlyInput (.val 95)].map CycleInput.cpuPart
        = [{ cpuOnlyInput (.val 95) with memory := .ok 95 }].map CycleInput.cpuPart) ∧
    ((monitorStart cfg0 [cpuOnlyInput (.val 95)]).2.map CycleOutput.cpuEvents
        = (monitorStart cfg0 [{ cpuOnlyInput (.val 95) with memory := .ok 95 }]).2.map
            CycleOutput.cpuEvents) :=
  ⟨by decide,
   (c3_class_level_independence cfg0 [cpuOnlyInput (.val 95)]
      [{ cpuOnlyInput (.val 95) with memory := .ok 95 }]).1 (by decide)⟩

/-- C4: a mount that disappears while its incident is active is never
resolved.  `/mnt/data` breaches on cycle 1 (create emitted, incident stored
in the shared "disk" entry) and is gone from cycles 2 and 3; the claim
requires exactly one resolve on cycle 2, but the code emits none — the empty
`[]Incident` result boxes to a non-nil `interface{}`, the resolve branch is
skipped, and the incident lingers forever. -/
theorem c4_unmounted_incident_never_resolved :
    ((monitorStart cfg0 c4Inputs).2.map CycleOutput.diskEvents
        = [[Event.create dataInc0 true], [], []]) ∧
    (mapGet (monitorStart cfg0 c4Inputs).1 "disk" = [dataInc0]) ∧
    (((monitorStart cfg0 c4Inputs).2.map CycleOutput.events).flatten.filter Event.isResolve
        = []) := by
  decide

/-- C5: the skip-on-sampler-error part holds — the failed cycle 2 emits no
action, reports the error and leaves the map exactly as after cycle 1 — but
the claimed follow-up fails: cycle 3's under-limit sample does not resolve
the incident left open before the failed cycle (no resolve is ever emitted),
so the scenario "cycle 3 with sample back under limit emits resolve"
diverges from the code. -/
theorem c5_sampler_error_skip_then_no_resolve :
    ((monitorStart cfg0 c5Inputs).2.map CycleOutput.cpuEvents
        = [[Event.create cpuInc0 true], [], []]) ∧
    ((monitorStart cfg0 c5Inputs).2.map CycleOutput.cpuErr
        = [none, some "failed to evaluate cpu: failed to get CPU usage: boom", none]) ∧
    ((monitorStart cfg0 (c5Inputs.take 2)).1 = (monitorStart cfg0 (c5Inputs.take 1)).1) ∧
    (mapGet (monitorStart cfg0 c5Inputs).1 "cpu" = [cpuInc0]) := by
  decide

/-- C6 counterexample: a failed create delivery does roll back the claimed
state transition.  With an empty cpu entry, a breaching sample and a
transport error on the POST, `processType` attempts the create notification
but returns before writing the map: the insertion does not take effect,
contradicting the claim that the Active-Incident Set transition accompanying
the action still happens on delivery failure. -/
theorem c6_counterexample :
    ((runCycle cfg0 initialIncidents c6Input).cpuEvents = [Event.create cpuInc0 false]) ∧
    (mapGet (runCycle cfg0 initialIncidents c6Input).incidents "cpu" = []) ∧
    ((runCycle cfg0 initialIncidents c6Input).cpuErr
        = some "failed to create incident: failed to send request: conn refused") := by
  decide

/-- C6 (amended): delivery failure is not rolled back only on the resolve
side: in the resolve branch the entry is cleared and one resolve is attempted
per stored incident whatever the outcomes (a failed resolve is never
retried), while a failed create aborts `processType` before the insertion, so
the create is retried on the next breaching cycle. -/
theorem c6_state_transition_on_delivery_failure :
    (∀ (st : MonState) (t : String) (net : List NetOutcome), mapGet st t ≠ [] →
      mapGet (processType st t (.ok .nilInterface) net).incidents t = [] ∧
      (processType st t (.ok .nilInterface) net).events = (resolveLoop (mapGet st t) net).1 ∧
      ((resolveLoop (mapGet st t) net).1.filter Event.isResolve).length
        = (mapGet st t).length) ∧
    (∀ (st : MonState) (t : String) (inc : Incident) (net : List NetOutcome),
      mapGet st t = [] → sendOk (takeNet net).1 = false →
      (processType st t (.ok (.ptr (some inc))) net).incidents = st ∧
      (processType st t (.ok (.ptr (some inc))) net).events = [Event.create inc false]) := by
  constructor
  · intro st t net hne
    have hlen : (mapGet st t).length > 0 := List.length_pos.mpr hne
    refine ⟨?_, ?_, resolveLoop_filter_length (mapGet st t) net⟩
    · simp [processType, hlen, mapGet_mapSet_self]
    · simp [processType, hlen]
  · intro st t inc net hget hfail
    have hlen : ¬(mapGet st t).length > 0 := by simp [hget]
    constructor
    · simp [processType, hlen, hfail]
    · simp [processType, hlen, hfail]

/-- C6 witness: concrete instantiation of both parts of the amended claim. -/
theorem c6_state_transition_on_delivery_failure_witness :
    (mapGet (processType [("cpu", [cpuInc0])] "cpu" (.ok .nilInterface)
        [.transportErr "x"]).incidents "cpu" = []) ∧
    ((processType initialIncidents "cpu" (.ok (.ptr (some cpuInc0)))
        [.transportErr "x"]).incidents = initialIncidents) :=
  ⟨(c6_state_transition_on_delivery_failure.1 [("cpu", [cpuInc0])] "cpu"
      [.transportErr "x"] (by decide)).1,
   (c6_state_transition_on_delivery_failure.2 initialIncidents "cpu" cpuInc0
      [.transportErr "x"] (by decide) (by decide)).1⟩

/-- C7 counterexample: `Start` runs no reconciliation cycle before the first
tick — with zero ticks elapsed the code has run 0 cycles, while the claimed
initial-at-startup cycle (present only in the metrics-push variant's
scheduler) would make it 1. -/
theorem c7_counterexample :
    ((monitorStart cfg0 []).2.length = 0) ∧ (startSpecCycleCount 0 = 1) ∧ ((0 : ℕ) ≠ 1) := by
  decide

/-- C7 (amended): there is no initial cycle; the scheduler runs exactly one
cycle per tick (cpu, then memory, then disk within the cycle), sequentially:
appending one more tick extends the run by exactly that tick's cycle,
started from the final state of the previous ticks. -/
theorem c7_no_initial_cycle_one_per_tick :
    (∀ (cfg : Config) (inputs : List CycleInput),
        (monitorStart cfg inputs).2.length = inputs.length) ∧
    (∀ (cfg : Config) (st : MonState) (inputs : List CycleInput) (i : CycleInput),
        runCycles cfg st (inputs ++ [i])
          = ((runCycle cfg (runCycles cfg st inputs).1 i).incidents,
             (runCycles cfg st inputs).2 ++ [runCycle cfg (runCycles cfg st inputs).1 i])) :=
  ⟨fun cfg inputs => runCycles_length cfg inputs initialIncidents,
   fun cfg st inputs i => runCycles_snoc cfg inputs st i⟩

/-- C8 counterexample: two distinct disk dimensions carry the same alert
identifier.  With the root partition and `/mnt/data` both breaching,
`evaluateDiskIncident` builds two distinct incidents whose `AlertID` is the
same `high-disk-h`, so the identifier does not distinguish `disk:/` from
`disk:/mnt/data` as the claim requires. -/
theorem c8_counterexample :
    (evaluateDiskIncident cfg0 7 ⟨.ok 90, none, [("/mnt/data", .ok 90)]⟩
        = .ok [rootDiskIncident cfg0 7, mountIncident cfg0 7 "/mnt/data"]) ∧
    ((rootDiskIncident cfg0 7).AlertID = (mountIncident cfg0 7 "/mnt/data").AlertID) ∧
    (rootDiskIncident cfg0 7 ≠ mountIncident cfg0 7 "/mnt/data") := by
  decide

/-- C8 (amended): the alert identifier is deterministic in metric class and
hostname — every cpu incident carries `high-cpu-<hostname>`, every memory
incident `high-memory-<hostname>`, and every disk incident (root partition
or any mount) the single shared `high-disk-<hostname>` — and the three class
identifiers are pairwise distinct on any host; the identifier is therefore a
per-class deduplication key, not a per-dimension one. -/
theorem c8_alert_id_per_class (cfg : Config) :
    (∀ (now : Int) (v : ℚ) (inc : Incident),
        evaluateCPUIncident cfg now (.val v) = .ok (some inc) →
        inc.AlertID = "high-cpu-" ++ cfg.hostname) ∧
    (∀ (now : Int) (v : ℚ) (inc : Incident),
        evaluateMemoryIncident cfg now (.ok v) = .ok (some inc) →
        inc.AlertID = "high-memory-" ++ cfg.hostname) ∧
    (∀ (now : Int) (d : DiskObservation) (l : List Incident),
        evaluateDiskIncident cfg now d = .ok l →
        ∀ inc ∈ l, inc.AlertID = "high-disk-" ++ cfg.hostname) ∧
    (("high-cpu-" ++ cfg.hostname ≠ "high-memory-" ++ cfg.hostname) ∧
      ("high-cpu-" ++ cfg.hostname ≠ "high-disk-" ++ cfg.hostname) ∧
      ("high-memory-" ++ cfg.hostname ≠ "high-disk-" ++ cfg.hostname)) := by
  refine ⟨?_, ?_, ?_, classAlertIds_distinct cfg.hostname⟩
  · intro now v inc h
    by_cases hv : v > cfg.cpuLimit <;> simp [evaluateCPUIncident, hv] at h
    rw [← h]
  · intro now v inc h
    by_cases hv : v > cfg.memoryLimit <;> simp [evaluateMemoryIncident, hv] at h
    rw [← h]
  · intro now d l h inc hmem
    rcases d with ⟨root, globErr, mounts⟩
    rcases root with m | rootV
    · simp [evaluateDiskIncident] at h
    rcases globErr with _ | m
    · simp only [evaluateDiskIncident, Except.ok.injEq] at h
      rw [← h] at hmem
      rcases List.mem_append.mp hmem with hmem | hmem
      · rcases hv : decide (rootV > cfg.diskLimit) with _ | _
        · simp [of_decide_eq_false hv] at hmem
        · simp [of_decide_eq_true hv] at hmem
          rw [hmem]; rfl
      · rcases List.mem_filterMap.mp hmem with ⟨p, hp, hinc⟩
        rcases p with ⟨mname, u⟩
        rcases u with um | uv
        · simp at hinc
        · by_cases huv : uv > cfg.diskLimit
          · simp [huv] at hinc
            rw [← hinc]; rfl
          · simp [huv] at hinc
    · simp [evaluateDiskIncident] at h

/-- C8 witness: concrete instantiation on the default configuration. -/
theorem c8_alert_id_per_class_witness :
    (cpuInc0.AlertID = "high-cpu-" ++ "h") ∧
    ("high-cpu-" ++ "h" ≠ "high-memory-" ++ "h") :=
  ⟨(c8_alert_id_per_class cfg0).1 0 95 cpuInc0 (by decide),
   ((c8_alert_id_per_class cfg0).2.2.2).1⟩

/-- C9: breach evaluation is strict comparison with the limit: `getStatus`
(the metrics-push variant's evaluator) answers `fail` exactly when
`value > limit` and a value equal to its limit passes; and each of the three
evaluators in src/main.go flags an incident exactly when the sampled value
strictly exceeds the configured limit, for every rational value, including
values above 100. -/
theorem c9_breach_is_strict_comparison :
    (∀ v l : ℚ, getStatus v l = "fail" ↔ v > l) ∧
    (∀ l : ℚ, getStatus l l = "pass") ∧
    (∀ (cfg : Config) (now : Int) (v : ℚ),
        (evaluateCPUIncident cfg now (.val v)).map Option.isSome
          = .ok (decide (v > cfg.cpuLimit))) ∧
    (∀ (cfg : Config) (now : Int) (v : ℚ),
        (evaluateMemoryIncident cfg now (.ok v)).map Option.isSome
          = .ok (decide (v > cfg.memoryLimit))) ∧
    (∀ (cfg : Config) (now : Int) (v : ℚ),
        (evaluateDiskIncident cfg now ⟨.ok v, none, []⟩).map List.length
          = .ok (if v > cfg.diskLimit then 1 else 0)) := by
  refine ⟨?_, ?_, ?_, ?_, ?_⟩
  · intro v l
    by_cases hv : v > l <;> simp [getStatus, hv]
  · intro l
    simp [getStatus]
  · intro cfg now v
    by_cases hv : v > cfg.cpuLimit <;> simp [evaluateCPUIncident, hv, Except.map]
  · intro cfg now v
    by_cases hv : v > cfg.memoryLimit <;> simp [evaluateMemoryIncident, hv, Except.map]
  · intro cfg now v
    by_cases hv : v > cfg.diskLimit <;> simp [evaluateDiskIncident, hv, Except.map]

/-- C10: in every reachable state the key set of the incidents map is exactly
cpu, memory, disk: it starts that way in `NewSystemMonitor`, and
`processType` touches no other key — it leaves every other key's entry
unchanged and, when its key exists, preserves the key set (it never adds a
per-mount key and never deletes a key). -/
theorem c10_incidents_key_invariant :
    (∀ (cfg : Config) (inputs : List CycleInput),
        mapKeys (monitorStart cfg inputs).1 = ["cpu", "memory", "disk"]) ∧
    (∀ (st : MonState) (t : String) (ev : Except String GoEvalValue)
        (net : List NetOutcome) (k : String), k ≠ t →
        mapGet (processType st t ev net).incidents k = mapGet st k) ∧
    (∀ (st : MonState) (t : String) (ev : Except String GoEvalValue)
        (net : List NetOutcome), hasKey st t = true →
        mapKeys (processType st t ev net).incidents = mapKeys st) :=
  ⟨fun cfg inputs => runCycles_keys cfg inputs initialIncidents rfl,
   fun st t ev net k hk => processType_frame st t ev net k hk,
   fun st t ev net h => processType_keys st t ev net h⟩

/-- C10 witness: concrete instantiation of all three parts. -/
theorem c10_incidents_key_invariant_witness :
    (mapKeys (monitorStart cfg0 c5Inputs).1 = ["cpu", "memory", "disk"]) ∧
    (mapGet (processType initialIncidents "cpu" (.ok .nilInterface) []).incidents "memory"
        = mapGet initialIncidents "memory") ∧
    (mapKeys (processType initialIncidents "cpu" (.ok .nilInterface) []).incidents
        = mapKeys initialIncidents) :=
  ⟨c10_incidents_key_invariant.1 cfg0 c5Inputs,
   c10_incidents_key_invariant.2.1 initialIncidents "cpu" (.ok .nilInterface) [] "memory"
     (by decide),
   c10_incidents_key_invariant.2.2 initialIncidents "cpu" (.ok .nilInterface) [] (by decide)⟩

end Monitoring
